import Mathlib

/-!
# Verification of the cypressfeb training repository

A shallow embedding of the repository's custom Cypress commands, page
object, CI pipeline definitions, node tasks and test suites, together
with theorems settling the specification's claims about them.

Each definition is translated from a concrete source location, cited in
its doc comment.  Cypress framework primitives (`cy.request`, `cy.get`,
command queuing, retry-until-timeout assertions) are modelled only as far
as the repository code exercises them.
-/

namespace Cypressfeb

/-! ## HTTP request semantics (framework primitives used by commands.js)

`cy.request` resolves to a response; whether it fails the test based on
the response status is controlled by its `failOnStatusCode` option.  The
repository's API helpers always pass `failOnStatusCode: false`, so the
exact success-status window never comes into play; following the spec's
error-handling section we take it to be the 2xx window. -/

/-- A resolved HTTP response; only the status code matters to the
commands under verification. -/
structure HttpResponse where
  status : Nat
deriving DecidableEq, Repr

/-- Whether a status code is in the 2xx success window. -/
def is2xx (s : Nat) : Bool :=
  decide (200 ≤ s) && decide (s < 300)

/-- Framework semantics: a `cy.request` call fails on status grounds
exactly when `failOnStatusCode` is set and the status is not a success
status. -/
def cyRequestStatusFails (failOnStatusCode : Bool) (resp : HttpResponse) : Bool :=
  failOnStatusCode && ! is2xx resp.status

/-! ## `apiGetAndValidate` / `apiPostAndValidate`
(src/cypress/support/commands.js lines 407-418 and 429-441)

Each command issues a request with `failOnStatusCode: false` and then
asserts `expect(response.status).to.eq(expectedStatus)`.  We model the
command's outcome as a Bool: `true` means the command fails.  The `url`
and `body` arguments do not influence the pass/fail outcome and are kept
only to mirror the source signatures. -/

/-- `cy.apiGetAndValidate(url, expectedStatus)`: GET with
`failOnStatusCode: false`, then assert the status equals
`expectedStatus`.  Returns `true` when the command fails. -/
def apiGetAndValidateFails (_url : String) (expectedStatus : Nat)
    (resp : HttpResponse) : Bool :=
  cyRequestStatusFails false resp || decide (resp.status ≠ expectedStatus)

/-- `cy.apiGetAndValidate(url)` with the source's default
`expectedStatus = 200`. -/
def apiGetAndValidateFailsDefault (url : String) (resp : HttpResponse) : Bool :=
  apiGetAndValidateFails url 200 resp

/-- `cy.apiPostAndValidate(url, body, expectedStatus)`: POST with
`failOnStatusCode: false`, then assert the status equals
`expectedStatus`.  Returns `true` when the command fails. -/
def apiPostAndValidateFails (_url _body : String) (expectedStatus : Nat)
    (resp : HttpResponse) : Bool :=
  cyRequestStatusFails false resp || decide (resp.status ≠ expectedStatus)

/-- `cy.apiPostAndValidate(url, body)` with the source's default
`expectedStatus = 201`. -/
def apiPostAndValidateFailsDefault (url body : String) (resp : HttpResponse) : Bool :=
  apiPostAndValidateFails url body 201 resp

/-! ## Login commands and their UI event traces

`cy.login` (src/cypress/support/commands.js lines 58-93) and
`LoginPage.loginWithFixture` (src/cypress/pages/LoginPage.js lines
142-151) load a fixture, look the user type up in it, throw when the
lookup comes back falsy, and otherwise drive the login UI.  We model a
command run as the ordered list of UI events it enqueues plus an
optional thrown error. -/

/-- A user credential record from a fixture.  Fixture records are flat
JSON objects, so a present key always maps to an object, which is truthy
in JS; hence the source's `if (!user)` test coincides with key
absence. -/
structure UserCred where
  username : String
  password : String
deriving DecidableEq, Repr

/-- The login-page selector strings carried by the customCommandData
fixture (`data.loginPage.selectors`). -/
structure LoginSelectors where
  usernameInput : String
  passwordInput : String
  submitButton : String
deriving DecidableEq, Repr

/-- Modelled from the spec: the fixture file
cypress/fixtures/customCommandData.json is not under src/ (only its
consumers are).  Per the spec's data model, fixture records are flat
JSON objects (credentials, selectors, endpoints); `users` maps user-type
strings to credential objects and `loginPage` carries the url and
selectors read by `cy.login`. -/
structure CustomCommandData where
  users : List (String × UserCred)
  loginUrl : String
  selectors : LoginSelectors
deriving DecidableEq, Repr

/-- Modelled from the spec: the fixture file
cypress/fixtures/loginCredentials.json is not under src/.  Per the
spec's data model it is a flat JSON object mapping user-type strings to
credential objects. -/
structure LoginCredentialsFixture where
  creds : List (String × UserCred)
deriving DecidableEq, Repr

/-- A UI-side effect enqueued by a command. -/
inductive UiEvent
  | fixtureLoad (name : String)
  | logStep
  | visit (url : String)
  | clearField (selector : String)
  | typeInto (selector : String) (text : String)
  | clickOn (selector : String)
  | aliasAs (name : String)
deriving DecidableEq, Repr

/-- The outcome of running a command: the UI events enqueued before it
finished or threw, and the thrown error message if any. -/
structure CmdRun where
  events : List UiEvent
  error : Option String
deriving DecidableEq, Repr

/-- The error message thrown by `cy.login` for a missing user type
(commands.js line 66). -/
def loginUserNotFoundMsg (userType : String) : String :=
  "User type \"" ++ userType ++ "\" not found in fixture data"

/-- `cy.login(userType)` (commands.js lines 58-93): load the
customCommandData fixture, look up `data.users[userType]`, throw when
absent, else log, visit `data.loginPage.url`, clear+type the username,
clear+type the password, click submit, and alias the user. -/
def cyLogin (data : CustomCommandData) (userType : String) : CmdRun :=
  match data.users.lookup userType with
  | none =>
      { events := [.fixtureLoad "customCommandData"],
        error := some (loginUserNotFoundMsg userType) }
  | some user =>
      { events := [.fixtureLoad "customCommandData", .logStep,
          .visit data.loginUrl,
          .clearField data.selectors.usernameInput,
          .typeInto data.selectors.usernameInput user.username,
          .clearField data.selectors.passwordInput,
          .typeInto data.selectors.passwordInput user.password,
          .clickOn data.selectors.submitButton,
          .aliasAs "currentUser"],
        error := none }

/-- The username-field selector list of `LoginPage.usernameInput`
(LoginPage.js line 27). -/
def loginPageUsernameSelector : String :=
  "[data-testid=\"username\"], #username, input[name=\"username\"], input[type=\"email\"]"

/-- The password-field selector list of `LoginPage.passwordInput`
(LoginPage.js line 31). -/
def loginPagePasswordSelector : String :=
  "[data-testid=\"password\"], #password, input[name=\"password\"], input[type=\"password\"]"

/-- The submit-button selector list of `LoginPage.loginButton`
(LoginPage.js line 35). -/
def loginPageLoginButtonSelector : String :=
  "[data-testid=\"login-button\"], button[type=\"submit\"], input[type=\"submit\"], .login-btn, #login-btn"

/-- `LoginPage.login(username, password)` (LoginPage.js lines 125-130):
enterUsername (clear + type), enterPassword (clear + type), click the
login button.  No page visit is part of this flow. -/
def loginPageLogin (username password : String) : List UiEvent :=
  [.clearField loginPageUsernameSelector,
   .typeInto loginPageUsernameSelector username,
   .clearField loginPagePasswordSelector,
   .typeInto loginPagePasswordSelector password,
   .clickOn loginPageLoginButtonSelector]

/-- The error message thrown by `LoginPage.loginWithFixture` for a
missing user type (LoginPage.js line 146). -/
def loginWithFixtureNotFoundMsg (userType : String) : String :=
  "User type \"" ++ userType ++ "\" not found in loginCredentials fixture"

/-- `LoginPage.loginWithFixture(userType)` (LoginPage.js lines 142-151):
load the loginCredentials fixture, look up `credentials[userType]`,
throw when absent, else run `this.login(user.username, user.password)`. -/
def loginWithFixture (fix : LoginCredentialsFixture) (userType : String) : CmdRun :=
  match fix.creds.lookup userType with
  | none =>
      { events := [.fixtureLoad "loginCredentials"],
        error := some (loginWithFixtureNotFoundMsg userType) }
  | some user =>
      { events := .fixtureLoad "loginCredentials" ::
          loginPageLogin user.username user.password,
        error := none }

/-- Whether a UI event visits a page. -/
def UiEvent.isVisit : UiEvent → Bool
  | .visit _ => true
  | _ => false

/-- Whether a UI event types into a field. -/
def UiEvent.isTyping : UiEvent → Bool
  | .typeInto _ _ => true
  | _ => false

/-- Whether a UI event clicks an element. -/
def UiEvent.isClick : UiEvent → Bool
  | .clickOn _ => true
  | _ => false

/-! ## `getIframeBody` (src/unnamed/part_001 lines 738-747)

`cy.get(sel).its('0.contentDocument.body').should('not.be.empty').then(cy.wrap)`:
the framework re-runs the query chain on every retry step until the
assertion passes or the retries are exhausted, then wraps the body as
the new subject.  We model an iframe's body content as a function of
the retry step, and a page as its main document's nodes plus its
iframes. -/

/-- A page: the main document's nodes, and for each iframe selector the
iframe body's child nodes as a function of the retry step. -/
structure PageDom where
  mainBody : List String
  iframes : List (String × (Nat → List String))

/-- The subject a Cypress chain operates on: the main document, or a
wrapped element collection (here: an iframe body's child nodes). -/
inductive Subject
  | mainDoc
  | wrapped (content : List String)
deriving DecidableEq, Repr

/-- Retry loop of `.should('not.be.empty')`: starting at step `t` with
`fuel` retries left, return the first step at which the content is
non-empty, or `none` on timeout. -/
def retryUntilNonEmpty (content : Nat → List String) (t fuel : Nat) : Option Nat :=
  if (content t).isEmpty then
    match fuel with
    | 0 => none
    | fuel' + 1 => retryUntilNonEmpty content (t + 1) fuel'
  else some t

/-- `cy.getIframeBody(iframeSelector)` (part_001 lines 738-747): query
the iframe, take `contentDocument.body`, retry until it is non-empty,
then yield it wrapped as the new subject. -/
def getIframeBody (page : PageDom) (sel : String) (retries : Nat) : Option Subject :=
  match page.iframes.lookup sel with
  | none => none
  | some content =>
      match retryUntilNonEmpty content 0 retries with
      | none => none
      | some t => some (.wrapped (content t))

/-- `.find(q)` chained after a subject: searches the wrapped content
when there is one, the main document otherwise. -/
def findIn (page : PageDom) (s : Subject) (q : String) : List String :=
  match s with
  | .mainDoc => page.mainBody.filter (fun n => n == q)
  | .wrapped c => c.filter (fun n => n == q)

/-! ## `validateSchema` (src/unnamed/part_001 lines 604-627)

The command takes the previous subject (a response), picks
`data[0]` when the body is an array and the body itself otherwise,
asserts every `schema.requiredFields` entry is a property of that item,
then for every `schema.types` entry whose value on the item is not
`undefined` asserts `typeof` equality, and finally wraps the original
response. -/

/-- A JSON value as manipulated by the support file. -/
inductive JVal
  | jnull
  | jbool (b : Bool)
  | jnum (n : Int)
  | jstr (s : String)
  | jarr (elems : List JVal)
  | jobj (fields : List (String × JVal))
deriving BEq, Repr

/-- JS `typeof` on a defined JSON value (`typeof null` is "object";
arrays and objects are both "object"). -/
def typeofJs : JVal → String
  | .jnull => "object"
  | .jbool _ => "boolean"
  | .jnum _ => "number"
  | .jstr _ => "string"
  | .jarr _ => "object"
  | .jobj _ => "object"

/-- JS property access `v[f]` on a defined value: `none` means
`undefined`. -/
def jsProperty : JVal → String → Option JVal
  | .jobj fields, f => fields.lookup f
  | _, _ => none

/-- Chai `expect(item).to.have.property(f)`: fails on `undefined`,
passes on an object exactly when the field is present. -/
def jsHasProperty (item : Option JVal) (f : String) : Bool :=
  match item with
  | none => false
  | some v => (jsProperty v f).isSome

/-- The schema argument of `validateSchema`:
`{ requiredFields: [], types: {} }` with the source's defaults. -/
structure ApiSchema where
  requiredFields : List String
  types : List (String × String)

/-- An API response: the command inspects `response.body` and yields the
whole response; `status` stands for the rest of the response object. -/
structure ApiResponse where
  status : Nat
  body : JVal

/-- The assertion sequence of `validateSchema` run against the selected
item: required-field checks first (the first failing `expect` throws),
then type checks, skipping fields whose value is `undefined`.  When the
item itself is `undefined` (empty-array body), a non-empty `types` map
makes the JS field access throw. -/
def validateItem (item : Option JVal) (reqs : List String)
    (types : List (String × String)) : Except String Unit :=
  match reqs.find? (fun f => ! jsHasProperty item f) with
  | some f => .error ("Required field \"" ++ f ++ "\"")
  | none =>
      match item with
      | none =>
          if types.isEmpty then .ok ()
          else .error "TypeError: cannot read properties of undefined"
      | some v =>
          match types.find? (fun p =>
              match jsProperty v p.1 with
              | none => false
              | some w => typeofJs w != p.2) with
          | some p => .error ("Field \"" ++ p.1 ++ "\" type")
          | none => .ok ()

/-- `cy.validateSchema(response, schema)` (part_001 lines 604-627):
select `data[0]` for an array body and the body itself otherwise, run
the assertions, and on success yield the original response
(`return cy.wrap(response)`). -/
def validateSchema (resp : ApiResponse) (schema : ApiSchema) :
    Except String ApiResponse :=
  match validateItem
      (match resp.body with
       | .jarr elems => elems.head?
       | v => some v)
      schema.requiredFields schema.types with
  | .ok _ => .ok resp
  | .error e => .error e

/-! ## The `clearDownloads` node task (src/cypress.config.js lines 47-59)

`fs.readdirSync` lists the directory's direct entries; the task unlinks
those whose `statSync` says they are regular files, leaves the rest in
place, and returns `files.length` - the count of all listed entries. -/

/-- A directory entry: a regular file, or a subdirectory with its own
contents. -/
inductive FsEntry
  | file (name : String)
  | dir (name : String) (contents : List FsEntry)
deriving BEq, Repr

/-- Whether an entry is a regular file (`fs.statSync(p).isFile()`). -/
def FsEntry.isFile : FsEntry → Bool
  | .file _ => true
  | .dir _ _ => false

/-- The `clearDownloads(dirPath)` task: on a missing directory return 0
and touch nothing; otherwise unlink the regular files directly inside
and return the total number of directory entries.  The directory is
`none` when it does not exist, `some entries` otherwise; the result
pairs the returned count with the directory's new state. -/
def clearDownloads : Option (List FsEntry) → Nat × Option (List FsEntry)
  | none => (0, none)
  | some entries =>
      (entries.length, some (entries.filter (fun e => ! e.isFile)))

/-! ## CI pipeline definitions

Two Jenkins declarative pipelines live in src/Jenkinsfile (a docker
pipeline, lines 1-113, and a NodeJS-tool pipeline after it), a third in
src/unnamed/part_000 (the parameterized NodeJS-tool pipeline), and a
Windows batch script follows the config in src/cypress.config.prod.js
(lines 30-83).  We transcribe their stage lists, shell commands and
conditionals. -/

/-- A command-line flag passed to `npx cypress run`. -/
structure CliFlag where
  flag : String
  value : String
deriving DecidableEq, Repr

/-- A shell command run by a pipeline step, keeping its internal
conditional structure. -/
inductive ShellCmd
  /-- `npm ci || npm install` (part_000 line 84, Jenkinsfile line 165). -/
  | npmCiOrInstall
  /-- `if [ -f package-lock.json ]; then npm ci; else npm install; fi`
  (Jenkinsfile lines 32-36). -/
  | npmCiIfLockfileElseInstall
  /-- `npx cypress verify` (part_000 line 97, Jenkinsfile line 178). -/
  | cypressVerify
  /-- `npx cypress run` with the given flags. -/
  | cypressRun (flags : List CliFlag)
  /-- `mochawesome-merge` plus `marge`, guarded by
  `ls cypress/reports/*.json` (Jenkinsfile lines 61-67). -/
  | mergeAndGenerateHtmlIfReports
  /-- the diagnostics listing guarded by `[ -d cypress ]`
  (Jenkinsfile lines 75-78). -/
  | listWorkspaceFiles
deriving DecidableEq, Repr

/-- A step inside a pipeline stage or post block.  `platformSwitch`
marks a shell command wrapped in `script { if (isUnix()) sh ... else
bat ... }`. -/
inductive PipelineStep
  | echoMsg (msg : String)
  | checkoutScm
  | shell (platformSwitch : Bool) (cmd : ShellCmd)
  | archiveArtifacts (pattern : String)
  /-- `publishHTML` guarded by `fileExists(...)` (Jenkinsfile lines
  86-99). -/
  | publishHtmlIfExists (file : String)
deriving DecidableEq, Repr

/-- A named pipeline stage. -/
structure PipelineStage where
  name : String
  steps : List PipelineStep
deriving DecidableEq, Repr

/-- A declarative pipeline: its ordered stages and its `post { always }`
steps. -/
structure Pipeline where
  stages : List PipelineStage
  postAlways : List PipelineStep
deriving DecidableEq, Repr

/-- The mochawesome reporter options shared by the part_000 run stage
and the second Jenkinsfile pipeline's run stage. -/
def mochawesomeHtmlJsonOptions : String :=
  "reportDir=cypress/reports/mochawesome,overwrite=false,html=true,json=true"

/-- The `--spec`-choice of the part_000 run stage (lines 108-112):
`specsToRun` is `params.CUSTOM_SPECS` when `params.SPEC_FILE` equals
"CUSTOM" and `CUSTOM_SPECS?.trim()` is truthy, else `params.SPEC_FILE`.
A trimmed string is non-empty exactly when the string holds some
non-whitespace character. -/
def specsToRun (specFileParam customSpecsParam : String) : String :=
  if specFileParam == "CUSTOM" &&
      customSpecsParam.data.any (fun c => ! c.isWhitespace) then
    customSpecsParam
  else specFileParam

/-- The flags of the part_000 run-stage invocation (lines 117-119). -/
def part000RunFlags (specs : String) : List CliFlag :=
  [⟨"--spec", specs⟩, ⟨"--reporter", "mochawesome"⟩,
   ⟨"--reporter-options", mochawesomeHtmlJsonOptions⟩]

/-- The parameterized NodeJS-tool pipeline of src/unnamed/part_000
(lines 20-148), as a function of the two build parameters. -/
def part000Pipeline (specFileParam customSpecsParam : String) : Pipeline :=
  { stages := [
      ⟨"Checkout", [.echoMsg "Checking out source code...", .checkoutScm]⟩,
      ⟨"Install Dependencies",
        [.echoMsg "Installing npm dependencies...", .shell true .npmCiOrInstall]⟩,
      ⟨"Verify Cypress",
        [.echoMsg "Verifying Cypress installation...", .shell true .cypressVerify]⟩,
      ⟨"Run Cypress Tests",
        [.shell true (.cypressRun
          (part000RunFlags (specsToRun specFileParam customSpecsParam)))]⟩],
    postAlways := [
      .echoMsg "Archiving test artifacts...",
      .archiveArtifacts "cypress/videos/**/*.mp4",
      .archiveArtifacts "cypress/screenshots/**/*.png",
      .archiveArtifacts "cypress/reports/**/*"] }

/-- The flags of the docker pipeline's run invocation (Jenkinsfile lines
48-51); `${BASE_URL}` resolves to the pipeline environment's
"https://example.com" (line 17). -/
def dockerRunFlags : List CliFlag :=
  [⟨"--config", "baseUrl=https://example.com,video=true"⟩,
   ⟨"--reporter", "mochawesome"⟩,
   ⟨"--reporter-options", "html=false,json=true,reportDir=cypress/reports"⟩]

/-- The docker pipeline of src/Jenkinsfile (lines 1-113). -/
def jenkinsfileDockerPipeline : Pipeline :=
  { stages := [
      ⟨"Checkout", [.checkoutScm]⟩,
      ⟨"Install Dependencies", [.shell false .npmCiIfLockfileElseInstall]⟩,
      ⟨"Run Cypress (Headless + JSON reports)",
        [.shell false (.cypressRun dockerRunFlags)]⟩,
      ⟨"Merge & Generate HTML (Mochawesome)",
        [.shell false .mergeAndGenerateHtmlIfReports]⟩,
      ⟨"Diagnostics (list files)", [.shell false .listWorkspaceFiles]⟩,
      ⟨"Publish Reports & Artifacts",
        [.publishHtmlIfExists "cypress/reports/mochawesome.html",
         .archiveArtifacts "cypress/videos/**",
         .archiveArtifacts "cypress/screenshots/**",
         .archiveArtifacts "cypress/reports/**"]⟩],
    postAlways := [.echoMsg "Build finished; artifacts uploaded."] }

/-- The flags of the second Jenkinsfile pipeline's main run stage
(lines 191-193). -/
def jenkinsfile2RunFlags : List CliFlag :=
  [⟨"--reporter", "mochawesome"⟩,
   ⟨"--reporter-options", mochawesomeHtmlJsonOptions⟩]

/-- The flags of the second Jenkinsfile pipeline's Day-4 run stage
(lines 204-206). -/
def jenkinsfile2Day4Flags : List CliFlag :=
  [⟨"--spec", "cypress/e2e/Day4/*.cy.js"⟩]

/-- The NodeJS-tool pipeline that follows the docker pipeline in
src/Jenkinsfile (lines 132-235). -/
def jenkinsfile2Pipeline : Pipeline :=
  { stages := [
      ⟨"Checkout", [.echoMsg "Checking out source code...", .checkoutScm]⟩,
      ⟨"Install Dependencies",
        [.echoMsg "Installing npm dependencies...", .shell true .npmCiOrInstall]⟩,
      ⟨"Verify Cypress",
        [.echoMsg "Verifying Cypress installation...", .shell true .cypressVerify]⟩,
      ⟨"Run Cypress Tests",
        [.echoMsg "Running Cypress tests...",
         .shell true (.cypressRun jenkinsfile2RunFlags)]⟩,
      ⟨"Run Day 4 Tests Only",
        [.echoMsg "Running Day 4 CI/CD demo tests...",
         .shell true (.cypressRun jenkinsfile2Day4Flags)]⟩],
    postAlways := [
      .echoMsg "Archiving test artifacts...",
      .archiveArtifacts "cypress/videos/**/*.mp4",
      .archiveArtifacts "cypress/screenshots/**/*.png",
      .archiveArtifacts "cypress/reports/**/*"] }

/-- The flags of the batch script's run invocation
(cypress.config.prod.js batch section lines 56-59). -/
def batchRunFlags : List CliFlag :=
  [⟨"--config", "baseUrl=https://example.com,video=true"⟩,
   ⟨"--reporter", "mochawesome"⟩,
   ⟨"--reporter-options", "html=false,json=true,reportDir=cypress/reports"⟩]

/-- Every `npx cypress run` invocation across the Jenkins pipelines and
the batch script, as a function of part_000's build parameters. -/
def ciCypressRunInvocations (specFileParam customSpecsParam : String) :
    List (List CliFlag) :=
  [part000RunFlags (specsToRun specFileParam customSpecsParam),
   dockerRunFlags,
   jenkinsfile2RunFlags,
   jenkinsfile2Day4Flags,
   batchRunFlags]

/-! ## Conditional branches in the CI definitions (for C4) -/

/-- A conditional branch occurring in a Jenkins pipeline definition or
in the Windows batch script. -/
inductive CiCond
  /-- a file, directory or glob existence test (`[ -f ... ]`,
  `[ -d ... ]`, `ls glob`, `fileExists(...)`, `if exist ...`). -/
  | existenceCheck (path : String)
  /-- Jenkins `isUnix()` agent-platform test. -/
  | isUnixAgent
  /-- part_000 line 110:
  `params.SPEC_FILE == 'CUSTOM' && params.CUSTOM_SPECS?.trim()`. -/
  | specParamIsCustom
  /-- an exit-status fallback `a || b`: branches on whether `a`
  succeeded. -/
  | cmdFailedFallback (cmd : String)
deriving DecidableEq, Repr

/-- Whether a CI conditional is an existence check. -/
def CiCond.isExistenceCheck : CiCond → Bool
  | .existenceCheck _ => true
  | _ => false

/-- The conditional branches of the part_000 pipeline, in source order:
install-stage `isUnix()`, the `npm ci || npm install` fallback, the
verify-stage `isUnix()`, the run-stage spec-parameter check (line 110)
and the run-stage `isUnix()`. -/
def part000Conditionals : List CiCond :=
  [.isUnixAgent, .cmdFailedFallback "npm ci", .isUnixAgent,
   .specParamIsCustom, .isUnixAgent]

/-- The conditional branches of the docker Jenkinsfile pipeline, in
source order: the package-lock test (line 32), the reports-glob test
(line 61), the two `[ -d cypress ]` tests (lines 77-78) and the
`fileExists` guard on publishing (line 87). -/
def jenkinsfileDockerConditionals : List CiCond :=
  [.existenceCheck "package-lock.json",
   .existenceCheck "cypress/reports/*.json",
   .existenceCheck "cypress",
   .existenceCheck "cypress",
   .existenceCheck "cypress/reports/mochawesome.html"]

/-- The conditional branches of the second Jenkinsfile pipeline, in
source order: the four `isUnix()` switches and the
`npm ci || npm install` fallback. -/
def jenkinsfile2Conditionals : List CiCond :=
  [.isUnixAgent, .cmdFailedFallback "npm ci", .isUnixAgent,
   .isUnixAgent, .isUnixAgent]

/-- The conditional branches of the Windows batch script, in source
order: the package-lock test (line 42), the three `npm ls ... || npm i`
fallbacks (lines 51-53), the reports-glob test (line 62) and the
cypress-folder test (line 71). -/
def batchConditionals : List CiCond :=
  [.existenceCheck "package-lock.json",
   .cmdFailedFallback "npm ls mochawesome",
   .cmdFailedFallback "npm ls mochawesome-merge",
   .cmdFailedFallback "npm ls mochawesome-report-generator",
   .existenceCheck "cypress\\reports\\*.json",
   .existenceCheck "cypress"]

/-- All conditional branches across the three pipelines and the batch
script. -/
def allCiConditionals : List CiCond :=
  part000Conditionals ++ jenkinsfileDockerConditionals ++
    jenkinsfile2Conditionals ++ batchConditionals

/-! ## Stage-content predicates (for C3) -/

/-- Whether a step checks out the sources. -/
def stepChecksOut : PipelineStep → Bool
  | .checkoutScm => true
  | _ => false

/-- Whether a step installs dependencies. -/
def stepInstalls : PipelineStep → Bool
  | .shell _ .npmCiOrInstall => true
  | .shell _ .npmCiIfLockfileElseInstall => true
  | _ => false

/-- Whether a step verifies the test runner. -/
def stepVerifies : PipelineStep → Bool
  | .shell _ .cypressVerify => true
  | _ => false

/-- Whether a step runs the tests. -/
def stepRunsTests : PipelineStep → Bool
  | .shell _ (.cypressRun _) => true
  | _ => false

/-- Whether a step generates the merged test report. -/
def stepGeneratesReport : PipelineStep → Bool
  | .shell _ .mergeAndGenerateHtmlIfReports => true
  | _ => false

/-- Whether a step archives or publishes artifacts. -/
def stepArchives : PipelineStep → Bool
  | .archiveArtifacts _ => true
  | .publishHtmlIfExists _ => true
  | _ => false

/-- Whether some step of the stage satisfies the predicate. -/
def stageHas (p : PipelineStep → Bool) (s : PipelineStage) : Bool :=
  s.steps.any p

/-! ## Command registrations in the support file (for C8)

src/unnamed/part_001 lines 1-1068 are one support file; these are its
`Cypress.Commands.add` first arguments, in source order (registration
lines 58, 104, 128, 151, 174, 203, 219, 236, 258, 277, 297, 315, 334,
350, 364, 379, 407, 429, 478, 536, 566, 604, 640, 659, 670, 681, 692,
703, 738, 755, 770, 794, 811, 828, 855, 878, 910, 939, 952, 971, 991,
1008, 1020, 1031, 1051). -/

/-- The command names registered by src/unnamed/part_001, in order. -/
def part001Registrations : List String :=
  ["login", "verifyLoginSuccess", "verifyLoginError", "fillForm",
   "apiLogin", "shouldBeVisibleAndContain", "typeAndVerify",
   "clickAndWait", "forceClick", "takeScreenshotWithLabel", "withTimeout",
   "clearAllData", "logTestInfo", "waitForElementToDisappear",
   "getRandomItem", "checkLink", "apiGetAndValidate", "apiPostAndValidate",
   "apiRequest", "apiLogin", "apiAuthRequest", "validateSchema",
   "validateHeaders", "apiCreate", "apiRead", "apiUpdate", "apiPatch",
   "apiDelete", "getIframeBody", "getIframeDocument", "typeInTinyMce",
   "typeInIframe", "clickInIframe", "uploadFile", "verifyDownload",
   "interceptAndMock", "waitForApi", "uploadFile", "verifyDownloadedFile",
   "clearDownloadsFolder", "getEnvVariable", "verifyEnvVariable",
   "checkFeatureFlag", "logEnvironmentInfo", "makeApiRequest"]

/-- How often a command name is registered by the support file. -/
def registrationCount (name : String) : Nat :=
  part001Registrations.count name

/-! ## The API Hooks Demo suite (src/unnamed/part_004, for C5)

The suite holds a closure variable `createdUserId` (initially
`undefined`), three tests, and an `after` hook that issues a DELETE for
`createdUserId` when that variable is truthy. -/

/-- An HTTP request issued by the API Hooks Demo suite. -/
inductive ApiReq
  | getUsers
  | postUser
  | putUser (id : Nat)
  | deleteUser (id : Nat)
deriving DecidableEq, Repr

/-- The three tests of the suite, in declaration order. -/
inductive ApiTest
  | listUsers
  | createUser
  | updateUser
deriving DecidableEq, Repr

/-- Running one test of the suite: given the id JSONPlaceholder assigns
to a created user and the current value of `createdUserId`, return the
new value of `createdUserId` and the requests the test issues.
`listUsers` GETs the user list (lines 30-36); `createUser` POSTs a user
and stores `body.id` (lines 38-48); `updateUser` PUTs user 2 (lines
50-58). -/
def runApiTest (serverAssignedId : Nat) :
    ApiTest → Option Nat → Option Nat × List ApiReq
  | .listUsers, s => (s, [.getUsers])
  | .createUser, _ => (some serverAssignedId, [.postUser])
  | .updateUser, s => (s, [.putUser 2])

/-- The `after` hook (lines 21-28): issue the DELETE only when
`createdUserId` is truthy (`undefined` and `0` are falsy in JS). -/
def afterHookReqs : Option Nat → List ApiReq
  | none => []
  | some n => if n ≠ 0 then [.deleteUser n] else []

/-- Run the whole suite over a given test list: fold the tests over the
`createdUserId` state, then run the `after` hook on the final state.
Returns the requests issued by the tests and by the teardown. -/
def runApiSuite (serverAssignedId : Nat) (tests : List ApiTest) :
    List ApiReq × List ApiReq :=
  let final := tests.foldl
    (fun acc t =>
      let next := runApiTest serverAssignedId t acc.1
      (next.1, acc.2 ++ next.2))
    ((none : Option Nat), ([] : List ApiReq))
  (final.2, afterHookReqs final.1)

end Cypressfeb

/-! ## Theorems -/

namespace Cypressfeb

/-- C1 (counterexample): for the present user type "validUser",
`LoginPage.loginWithFixture` completes without error but its event trace
contains no page visit, so the claim's login-step list (visit, type
username, type password, click submit) is not performed in full by
`loginWithFixture`. -/
theorem loginWithFixture_no_visit_counterexample :
    (loginWithFixture ⟨[("validUser", ⟨"student", "Password123"⟩)]⟩
        "validUser").error = none ∧
    ((loginWithFixture ⟨[("validUser", ⟨"student", "Password123"⟩)]⟩
        "validUser").events.any UiEvent.isVisit) = false ∧
    ((loginWithFixture ⟨[("validUser", ⟨"student", "Password123"⟩)]⟩
        "validUser").events.any UiEvent.isTyping) = true := by
  decide

/-- C1 (amended): for a user type absent from the respective fixture
map, `cy.login` and `LoginPage.loginWithFixture` throw an error naming
the user type, before any visit, typing or click; for a present user
type neither throws, `cy.login` performs visit, type username, type
password, click submit in order, and `loginWithFixture` performs type
username, type password, click submit in order without any visit of its
own. -/
theorem cyLogin_loginWithFixture_login_steps
    (data : CustomCommandData) (fix : LoginCredentialsFixture)
    (userType : String) :
    (data.users.lookup userType = none →
      (cyLogin data userType).error = some (loginUserNotFoundMsg userType) ∧
      ((cyLogin data userType).events.any
        (fun e => e.isVisit || e.isTyping || e.isClick)) = false) ∧
    (∀ user, data.users.lookup userType = some user →
      cyLogin data userType =
        { events := [.fixtureLoad "customCommandData", .logStep,
            .visit data.loginUrl,
            .clearField data.selectors.usernameInput,
            .typeInto data.selectors.usernameInput user.username,
            .clearField data.selectors.passwordInput,
            .typeInto data.selectors.passwordInput user.password,
            .clickOn data.selectors.submitButton,
            .aliasAs "currentUser"],
          error := none }) ∧
    (fix.creds.lookup userType = none →
      (loginWithFixture fix userType).error =
        some (loginWithFixtureNotFoundMsg userType) ∧
      ((loginWithFixture fix userType).events.any
        (fun e => e.isVisit || e.isTyping || e.isClick)) = false) ∧
    (∀ user, fix.creds.lookup userType = some user →
      loginWithFixture fix userType =
        { events := .fixtureLoad "loginCredentials" ::
            loginPageLogin user.username user.password,
          error := none } ∧
      ((loginWithFixture fix userType).events.any UiEvent.isVisit) = false) := by
  refine ⟨?_, ?_, ?_, ?_⟩
  · intro h
    simp [cyLogin, h, UiEvent.isVisit, UiEvent.isTyping, UiEvent.isClick]
  · intro user h
    simp [cyLogin, h]
  · intro h
    simp [loginWithFixture, h, UiEvent.isVisit, UiEvent.isTyping, UiEvent.isClick]
  · intro user h
    simp [loginWithFixture, h, loginPageLogin,
      UiEvent.isVisit, UiEvent.isTyping, UiEvent.isClick]

/-- Witness for the amended C1 theorem at concrete fixtures: the user
type "ghost" is missing from both fixtures and triggers the named
errors; the user type "admin" is present and triggers the full event
traces. -/
theorem cyLogin_loginWithFixture_login_steps_witness :
    (cyLogin ⟨[("admin", ⟨"adm", "pw"⟩)], "/login", ⟨"#username", "#password", "#submit"⟩⟩
      "ghost").error = some (loginUserNotFoundMsg "ghost") ∧
    cyLogin ⟨[("admin", ⟨"adm", "pw"⟩)], "/login", ⟨"#username", "#password", "#submit"⟩⟩
        "admin" =
      { events := [.fixtureLoad "customCommandData", .logStep, .visit "/login",
          .clearField "#username", .typeInto "#username" "adm",
          .clearField "#password", .typeInto "#password" "pw",
          .clickOn "#submit", .aliasAs "currentUser"],
        error := none } ∧
    (loginWithFixture ⟨[("admin", ⟨"adm", "pw"⟩)]⟩ "ghost").error =
      some (loginWithFixtureNotFoundMsg "ghost") ∧
    (loginWithFixture ⟨[("admin", ⟨"adm", "pw"⟩)]⟩ "admin").error = none := by
  have hG := cyLogin_loginWithFixture_login_steps
    ⟨[("admin", ⟨"adm", "pw"⟩)], "/login", ⟨"#username", "#password", "#submit"⟩⟩
    ⟨[("admin", ⟨"adm", "pw"⟩)]⟩ "ghost"
  have hA := cyLogin_loginWithFixture_login_steps
    ⟨[("admin", ⟨"adm", "pw"⟩)], "/login", ⟨"#username", "#password", "#submit"⟩⟩
    ⟨[("admin", ⟨"adm", "pw"⟩)]⟩ "admin"
  refine ⟨(hG.1 (by decide)).1, hA.2.1 ⟨"adm", "pw"⟩ (by decide),
    (hG.2.2.1 (by decide)).1, ?_⟩
  have h := (hA.2.2.2 ⟨"adm", "pw"⟩ (by decide)).1
  rw [h]

/-- C2: `apiGetAndValidate` (default expected status 200) and
`apiPostAndValidate` (default 201) issue their request with
`failOnStatusCode` disabled and fail exactly when the response status
differs from the expected status; a non-2xx status equal to the expected
status never fails the command. -/
theorem apiValidate_fails_iff_status_differs
    (url body : String) (expectedStatus : Nat) (resp : HttpResponse) :
    (apiGetAndValidateFails url expectedStatus resp = true ↔
      resp.status ≠ expectedStatus) ∧
    (apiPostAndValidateFails url body expectedStatus resp = true ↔
      resp.status ≠ expectedStatus) ∧
    apiGetAndValidateFailsDefault url resp = apiGetAndValidateFails url 200 resp ∧
    apiPostAndValidateFailsDefault url body resp = apiPostAndValidateFails url body 201 resp ∧
    (is2xx resp.status = false → resp.status = expectedStatus →
      apiGetAndValidateFails url expectedStatus resp = false ∧
      apiPostAndValidateFails url body expectedStatus resp = false) := by
  refine ⟨?_, ?_, rfl, rfl, ?_⟩
  · simp [apiGetAndValidateFails, cyRequestStatusFails]
  · simp [apiPostAndValidateFails, cyRequestStatusFails]
  · intro _ hs
    simp [apiGetAndValidateFails, apiPostAndValidateFails, cyRequestStatusFails, hs]

/-- Witness for C2 at a concrete non-2xx response: a 404 response
matching the expected status 404 does not fail either command. -/
theorem apiValidate_fails_iff_status_differs_witness :
    is2xx 404 = false ∧
    apiGetAndValidateFails "/api/users" 404 ⟨404⟩ = false ∧
    apiPostAndValidateFails "/api/users" "name=John" 404 ⟨404⟩ = false := by
  refine ⟨by decide, ?_⟩
  have h := (apiValidate_fails_iff_status_differs "/api/users" "name=John" 404 ⟨404⟩).2.2.2.2
  exact h (by decide) rfl

/-- Helper: the retry loop returns the first step at or after its start
at which the content is non-empty, and only within its fuel budget. -/
theorem retryUntilNonEmpty_spec (content : Nat → List String) :
    ∀ fuel t r, retryUntilNonEmpty content t fuel = some r →
      t ≤ r ∧ r ≤ t + fuel ∧ (content r).isEmpty = false ∧
      ∀ s, t ≤ s → s < r → (content s).isEmpty = true := by
  intro fuel
  induction fuel with
  | zero =>
    intro t r h
    unfold retryUntilNonEmpty at h
    by_cases hc : (content t).isEmpty
    · simp [hc] at h
    · simp [hc] at h
      subst h
      exact ⟨Nat.le_refl _, Nat.le_add_right _ _,
        by simpa using hc, fun s hts hsr => absurd (Nat.lt_of_le_of_lt hts hsr) (Nat.lt_irrefl _)⟩
  | succ n ih =>
    intro t r h
    unfold retryUntilNonEmpty at h
    by_cases hc : (content t).isEmpty
    · simp only [hc, if_true] at h
      obtain ⟨h1, h2, h3, h4⟩ := ih (t + 1) r h
      refine ⟨Nat.le_of_succ_le h1, by omega, h3, ?_⟩
      intro s hts hsr
      rcases Nat.eq_or_lt_of_le hts with heq | hlt
      · subst heq; exact hc
      · exact h4 s hlt hsr
    · simp [hc] at h
      subst h
      exact ⟨Nat.le_refl _, Nat.le_add_right _ _,
        by simpa using hc, fun s hts hsr => absurd (Nat.lt_of_le_of_lt hts hsr) (Nat.lt_irrefl _)⟩

/-- C7: whenever `getIframeBody(iframeSelector)` yields a subject, that
subject is exactly the body content of the selected iframe's content
document at the first retry step at which it is non-empty (it yields
only after the content has loaded), and a `.find` chained after it
searches that iframe body, independent of any page's main document. -/
theorem getIframeBody_yields_iframe_body
    (page : PageDom) (sel : String) (retries : Nat) (subject : Subject)
    (h : getIframeBody page sel retries = some subject) :
    ∃ content t, page.iframes.lookup sel = some content ∧
      t ≤ retries ∧ subject = .wrapped (content t) ∧
      (content t).isEmpty = false ∧
      (∀ s, s < t → (content s).isEmpty = true) ∧
      ∀ q (page' : PageDom),
        findIn page' subject q = (content t).filter (fun n => n == q) := by
  unfold getIframeBody at h
  rcases hl : page.iframes.lookup sel with _ | content
  · simp only [hl] at h
    exact Option.noConfusion h
  · simp only [hl] at h
    rcases hr : retryUntilNonEmpty content 0 retries with _ | t
    · simp only [hr] at h
      exact Option.noConfusion h
    · simp only [hr, Option.some.injEq] at h
      obtain ⟨_, h2, h3, h4⟩ := retryUntilNonEmpty_spec content retries 0 t hr
      refine ⟨content, t, rfl, by omega, h.symm, h3, ?_, ?_⟩
      · exact fun s hs => h4 s (Nat.zero_le s) hs
      · intro q page'
        rw [h.symm]
        rfl

/-- Witness for C7 at a concrete page whose iframe body becomes
non-empty at retry step 2. -/
theorem getIframeBody_yields_iframe_body_witness :
    ∃ content t,
      (PageDom.mk ["h3"]
        [("#mce_0_ifr", fun k => if 2 ≤ k then ["p"] else [])]).iframes.lookup
          "#mce_0_ifr" = some content ∧
      t ≤ 5 ∧ Subject.wrapped ["p"] = .wrapped (content t) ∧
      (content t).isEmpty = false ∧
      (∀ s, s < t → (content s).isEmpty = true) ∧
      ∀ q (page' : PageDom),
        findIn page' (Subject.wrapped ["p"]) q =
          (content t).filter (fun n => n == q) :=
  getIframeBody_yields_iframe_body
    (PageDom.mk ["h3"] [("#mce_0_ifr", fun k => if 2 ≤ k then ["p"] else [])])
    "#mce_0_ifr" 5 (Subject.wrapped ["p"]) (by decide)

/-- Helper: success condition of the `validateSchema` assertion
sequence on a defined item: all required fields present, and every
`types` entry whose value is defined matches `typeof`; an entry whose
value is `undefined` is skipped rather than failed. -/
theorem validateItem_ok_iff (v : JVal) (reqs : List String)
    (types : List (String × String)) :
    validateItem (some v) reqs types = .ok () ↔
      ((∀ f ∈ reqs, jsHasProperty (some v) f = true) ∧
       ∀ p ∈ types, ∀ w, jsProperty v p.1 = some w → typeofJs w = p.2) := by
  unfold validateItem
  rcases hfind : reqs.find? (fun f => ! jsHasProperty (some v) f) with _ | f
  · have hfind' := hfind
    rw [List.find?_eq_none] at hfind'
    rcases htfind : types.find? (fun p =>
        match jsProperty v p.1 with
        | none => false
        | some w => typeofJs w != p.2) with _ | p
    · have htfind' := htfind
      rw [List.find?_eq_none] at htfind'
      simp only [hfind, htfind]
      constructor
      · intro _
        refine ⟨fun f hf => by simpa using hfind' f hf, fun p hp w hw => ?_⟩
        have h := htfind' p hp
        simp only [hw] at h
        by_contra hne
        exact h (bne_iff_ne.mpr hne)
      · intro _
        trivial
    · have hpmem := List.mem_of_find?_eq_some htfind
      have hpred := List.find?_some htfind
      simp only [hfind, htfind]
      constructor
      · intro hcontra
        exact absurd hcontra (by simp)
      · rintro ⟨-, h2⟩
        exfalso
        rcases hw : jsProperty v p.1 with _ | w
        · simp only [hw] at hpred
          exact Bool.noConfusion hpred
        · simp only [hw] at hpred
          exact absurd (h2 p hpmem w hw) (bne_iff_ne.mp hpred)
  · have hfmem := List.mem_of_find?_eq_some hfind
    have hfpred := List.find?_some hfind
    simp only [hfind]
    constructor
    · intro hcontra
      exact absurd hcontra (by simp)
    · rintro ⟨h1, -⟩
      exfalso
      have hhas := h1 f hfmem
      rw [hhas] at hfpred
      simp at hfpred

/-- C9: `validateSchema` validates only one item: on an array body the
result is computed from the first element alone (any two array bodies
with the same head give the same success/failure and the same error);
on a defined item it succeeds exactly when all required fields are
present and every `types` field with a defined value matches `typeof`
(an `undefined` value skips the check rather than failing); and on
success the command yields the original response unchanged. -/
theorem validateSchema_first_item_only
    (st st' : Nat) (x : JVal) (rest rest' : List JVal)
    (sch : ApiSchema) (resp : ApiResponse) (r : ApiResponse) :
    (validateSchema ⟨st, .jarr (x :: rest)⟩ sch =
      match validateItem (some x) sch.requiredFields sch.types with
      | .ok _ => .ok ⟨st, .jarr (x :: rest)⟩
      | .error e => .error e) ∧
    ((∃ a, validateSchema ⟨st, .jarr (x :: rest)⟩ sch = .ok a) ↔
      (∃ a, validateSchema ⟨st', .jarr (x :: rest')⟩ sch = .ok a)) ∧
    (∀ e, validateSchema ⟨st, .jarr (x :: rest)⟩ sch = .error e ↔
      validateSchema ⟨st', .jarr (x :: rest')⟩ sch = .error e) ∧
    (∀ v, validateItem (some v) sch.requiredFields sch.types = .ok () ↔
      ((∀ f ∈ sch.requiredFields, jsHasProperty (some v) f = true) ∧
       ∀ p ∈ sch.types, ∀ w, jsProperty v p.1 = some w → typeofJs w = p.2)) ∧
    (validateSchema resp sch = .ok r → r = resp) := by
  refine ⟨rfl, ?_, ?_, fun v => validateItem_ok_iff v _ _, ?_⟩
  · rcases hv : validateItem (some x) sch.requiredFields sch.types with e | u
    · simp [validateSchema, hv]
    · simp [validateSchema, hv]
  · intro e
    rcases hv : validateItem (some x) sch.requiredFields sch.types with e' | u
    · simp [validateSchema, hv]
    · simp [validateSchema, hv]
  · intro h
    unfold validateSchema at h
    rcases hv : validateItem
        (match resp.body with
         | .jarr elems => elems.head?
         | v => some v) sch.requiredFields sch.types with e | u
    · simp only [hv] at h
      exact Except.noConfusion h
    · simp only [hv, Except.ok.injEq] at h
      exact h.symm

/-- Witness for C9 at a concrete two-element array body: validation
succeeds from the first element alone and yields the original
response. -/
theorem validateSchema_first_item_only_witness :
    validateSchema
        ⟨200, .jarr [.jobj [("id", .jnum 1), ("title", .jstr "a")],
                     .jobj []]⟩
        ⟨["id"], [("id", "number"), ("missingField", "string")]⟩ =
      .ok ⟨200, .jarr [.jobj [("id", .jnum 1), ("title", .jstr "a")],
                       .jobj []]⟩ ∧
    validateSchema
        ⟨200, .jarr [.jobj [("id", .jnum 1), ("title", .jstr "a")],
                     .jobj []]⟩
        ⟨["id"], [("id", "number"), ("missingField", "string")]⟩ =
      match validateItem (some (.jobj [("id", .jnum 1), ("title", .jstr "a")]))
          ["id"] [("id", "number"), ("missingField", "string")] with
      | .ok _ => .ok ⟨200, .jarr [.jobj [("id", .jnum 1), ("title", .jstr "a")],
                                  .jobj []]⟩
      | .error e => .error e := by
  have h := validateSchema_first_item_only 200 200
    (.jobj [("id", .jnum 1), ("title", .jstr "a")]) [.jobj []] [.jobj []]
    ⟨["id"], [("id", "number"), ("missingField", "string")]⟩
    ⟨200, .jarr [.jobj [("id", .jnum 1), ("title", .jstr "a")], .jobj []]⟩
    ⟨200, .jarr [.jobj [("id", .jnum 1), ("title", .jstr "a")], .jobj []]⟩
  have hok : validateSchema
      ⟨200, .jarr [.jobj [("id", .jnum 1), ("title", .jstr "a")], .jobj []]⟩
      ⟨["id"], [("id", "number"), ("missingField", "string")]⟩ =
      .ok ⟨200, .jarr [.jobj [("id", .jnum 1), ("title", .jstr "a")],
                       .jobj []]⟩ := by
    have hr := h.2.2.2.2 rfl
    rfl
  exact ⟨hok, h.1⟩

/-- Helper: splitting a list by a predicate preserves its length. -/
theorem length_filter_add_length_filter_not (l : List FsEntry)
    (p : FsEntry → Bool) :
    (l.filter p).length + (l.filter (fun e => ! p e)).length = l.length := by
  induction l with
  | nil => rfl
  | cons x xs ih =>
    by_cases h : p x <;> simp [List.filter, h] <;> omega

/-- C10: `clearDownloads` returns 0 and modifies nothing on a missing
directory; otherwise it deletes exactly the regular files directly
inside, keeps every subdirectory with its contents unchanged, and
returns the total number of entries the directory contained, which can
exceed the number of files deleted (concrete case: one file plus one
subdirectory returns 2 while deleting 1 file). -/
theorem clearDownloads_spec :
    clearDownloads none = (0, none) ∧
    (∀ entries : List FsEntry,
      (clearDownloads (some entries)).1 = entries.length ∧
      (clearDownloads (some entries)).2 =
        some (entries.filter (fun e => ! e.isFile)) ∧
      (∀ name contents, FsEntry.dir name contents ∈ entries ↔
        FsEntry.dir name contents ∈ entries.filter (fun e => ! e.isFile)) ∧
      (entries.filter (fun e => e.isFile)).length +
        (entries.filter (fun e => ! e.isFile)).length = entries.length) ∧
    clearDownloads
        (some [FsEntry.file "a.txt", FsEntry.dir "sub" [FsEntry.file "b.txt"]]) =
      (2, some [FsEntry.dir "sub" [FsEntry.file "b.txt"]]) ∧
    ([FsEntry.file "a.txt", FsEntry.dir "sub" [FsEntry.file "b.txt"]].filter
        (fun e => e.isFile)).length = 1 := by
  refine ⟨rfl, ?_, rfl, rfl⟩
  intro entries
  refine ⟨rfl, rfl, ?_, length_filter_add_length_filter_not entries _⟩
  intro name contents
  rw [List.mem_filter]
  simp [FsEntry.isFile]

/-- Witness for C10 at a concrete directory listing. -/
theorem clearDownloads_spec_witness :
    (clearDownloads (some [FsEntry.file "x", FsEntry.dir "d" []])).1 = 2 ∧
    (clearDownloads (some [FsEntry.file "x", FsEntry.dir "d" []])).2 =
      some [FsEntry.dir "d" []] :=
  ⟨(clearDownloads_spec.2.1 [FsEntry.file "x", FsEntry.dir "d" []]).1,
   (clearDownloads_spec.2.1 [FsEntry.file "x", FsEntry.dir "d" []]).2.1⟩

/-- C3 (counterexample): the part_000 pipeline has no stage that
archives artifacts and none that generates the merged report (archiving
happens only in its post-always block), and the docker Jenkinsfile
pipeline has no stage that verifies the test runner - so neither cited
pipeline executes all six claimed activities as stages. -/
theorem pipeline_stage_list_counterexample :
    ((part000Pipeline "cypress/e2e/**/*.cy.js" "").stages.filter
      (stageHas stepArchives)) = [] ∧
    ((part000Pipeline "cypress/e2e/**/*.cy.js" "").stages.filter
      (stageHas stepGeneratesReport)) = [] ∧
    jenkinsfileDockerPipeline.stages.filter (stageHas stepVerifies) = [] := by
  decide

/-- C3 (amended): the part_000 pipeline executes stages Checkout,
Install Dependencies, Verify Cypress, Run Cypress Tests in that order
and archives artifacts in its post-always block, with no dedicated
report or archive stage; the docker Jenkinsfile pipeline executes
Checkout, Install, Run, report-merge, Diagnostics and Publish/Archive
stages in that order, with no verify stage. -/
theorem pipeline_stage_lists (specFileParam customSpecsParam : String) :
    (part000Pipeline specFileParam customSpecsParam).stages.map
        PipelineStage.name =
      ["Checkout", "Install Dependencies", "Verify Cypress",
       "Run Cypress Tests"] ∧
    (part000Pipeline specFileParam customSpecsParam).stages.map
        (fun s => [stageHas stepChecksOut s, stageHas stepInstalls s,
          stageHas stepVerifies s, stageHas stepRunsTests s]) =
      [[true, false, false, false], [false, true, false, false],
       [false, false, true, false], [false, false, false, true]] ∧
    ((part000Pipeline specFileParam customSpecsParam).postAlways.any
      stepArchives) = true ∧
    jenkinsfileDockerPipeline.stages.map PipelineStage.name =
      ["Checkout", "Install Dependencies",
       "Run Cypress (Headless + JSON reports)",
       "Merge & Generate HTML (Mochawesome)", "Diagnostics (list files)",
       "Publish Reports & Artifacts"] ∧
    jenkinsfileDockerPipeline.stages.map
        (fun s => [stageHas stepChecksOut s, stageHas stepInstalls s,
          stageHas stepRunsTests s, stageHas stepGeneratesReport s,
          stageHas stepArchives s]) =
      [[true, false, false, false, false], [false, true, false, false, false],
       [false, false, true, false, false], [false, false, false, true, false],
       [false, false, false, false, false],
       [false, false, false, false, true]] ∧
    jenkinsfileDockerPipeline.stages.filter (stageHas stepVerifies) = [] :=
  ⟨rfl, rfl, rfl, by decide, by decide, by decide⟩

/-- C4 (counterexample): the part_000 run stage's choice of spec files
is decided by a build-parameter check, not an existence check: the
conditional `params.SPEC_FILE == 'CUSTOM' && params.CUSTOM_SPECS?.trim()`
is among the pipeline's conditional branches and is not an existence
check, and flipping only the parameter changes which specs run. -/
theorem ciConditionals_not_existence_counterexample :
    CiCond.specParamIsCustom ∈ part000Conditionals ∧
    CiCond.specParamIsCustom.isExistenceCheck = false ∧
    specsToRun "CUSTOM" "cypress/e2e/Day2/Login.cy.js" =
      "cypress/e2e/Day2/Login.cy.js" ∧
    specsToRun "cypress/e2e/Day4/*.cy.js" "cypress/e2e/Day2/Login.cy.js" =
      "cypress/e2e/Day4/*.cy.js" := by
  decide

/-- C4 (amended): the conditional branches of the docker Jenkinsfile
pipeline are all existence checks, and in it and in the batch script the
npm ci versus npm install choice is an existence check on
package-lock.json; but the batch script additionally branches on the
exit status of three `npm ls` probes, and the part_000 and second
Jenkinsfile pipelines branch only on `isUnix()` platform checks, on the
`npm ci || npm install` exit-status fallback and (in part_000) on the
SPEC_FILE build parameter, which also decides the spec files passed to
the run stage. -/
theorem ciConditionals_classification :
    jenkinsfileDockerConditionals.filter (fun c => ! c.isExistenceCheck) = [] ∧
    jenkinsfileDockerConditionals.head? =
      some (.existenceCheck "package-lock.json") ∧
    batchConditionals.head? = some (.existenceCheck "package-lock.json") ∧
    batchConditionals.filter (fun c => ! c.isExistenceCheck) =
      [.cmdFailedFallback "npm ls mochawesome",
       .cmdFailedFallback "npm ls mochawesome-merge",
       .cmdFailedFallback "npm ls mochawesome-report-generator"] ∧
    part000Conditionals.filter (fun c => ! c.isExistenceCheck) =
      part000Conditionals ∧
    jenkinsfile2Conditionals.filter (fun c => ! c.isExistenceCheck) =
      jenkinsfile2Conditionals ∧
    (∀ specFile custom, specFile ≠ "CUSTOM" →
      specsToRun specFile custom = specFile) ∧
    ∀ custom, custom.data.any (fun c => ! c.isWhitespace) = true →
      specsToRun "CUSTOM" custom = custom := by
  refine ⟨by decide, by decide, by decide, by decide, by decide, by decide,
    ?_, ?_⟩
  · intro specFile custom h
    simp [specsToRun, h]
  · intro custom h
    simp [specsToRun, h]

/-- Witness for the amended C4 theorem at concrete parameter values. -/
theorem ciConditionals_classification_witness :
    specsToRun "cypress/e2e/Day4/*.cy.js" "x.cy.js" =
      "cypress/e2e/Day4/*.cy.js" ∧
    specsToRun "CUSTOM" "a.cy.js,b.cy.js" = "a.cy.js,b.cy.js" :=
  ⟨ciConditionals_classification.2.2.2.2.2.2.1
      "cypress/e2e/Day4/*.cy.js" "x.cy.js" (by decide),
   ciConditionals_classification.2.2.2.2.2.2.2
      "a.cy.js,b.cy.js" (by decide)⟩

/-- C6 (counterexample): the docker Jenkinsfile's run invocation passes
no `--spec` flag, the Day-4 run stage of the second Jenkinsfile pipeline
passes no `--reporter` flag, and the `--reporter-options` and `--config`
flags actually used lie outside the claim's set of named flags. -/
theorem ciRunFlags_counterexample :
    dockerRunFlags.map CliFlag.flag =
      ["--config", "--reporter", "--reporter-options"] ∧
    "--spec" ∉ dockerRunFlags.map CliFlag.flag ∧
    "--reporter" ∉ jenkinsfile2Day4Flags.map CliFlag.flag ∧
    "--reporter-options" ∉ (["--spec", "--reporter", "--env"] : List String) ∧
    "--config" ∉ (["--spec", "--reporter", "--env"] : List String) ∧
    dockerRunFlags ∈ ciCypressRunInvocations "cypress/e2e/**/*.cy.js" "" := by
  decide

/-- C6 (amended): of the five CI invocations of the test runner, only
the part_000 run stage passes both `--spec` and `--reporter`; the docker
Jenkinsfile and batch-script invocations pass `--config`, `--reporter`
and `--reporter-options` but no `--spec`, the second Jenkinsfile
pipeline's main run stage passes no `--spec`, and its Day-4 stage passes
only `--spec`; every flag used is one of `--spec`, `--reporter`,
`--reporter-options`, `--config`, and `--env` is never used. -/
theorem ciRunFlags_inventory (specFileParam customSpecsParam : String) :
    (ciCypressRunInvocations specFileParam customSpecsParam).map
        (fun inv => inv.map CliFlag.flag) =
      [["--spec", "--reporter", "--reporter-options"],
       ["--config", "--reporter", "--reporter-options"],
       ["--reporter", "--reporter-options"],
       ["--spec"],
       ["--config", "--reporter", "--reporter-options"]] ∧
    ([["--spec", "--reporter", "--reporter-options"],
      ["--config", "--reporter", "--reporter-options"],
      ["--reporter", "--reporter-options"],
      ["--spec"],
      ["--config", "--reporter", "--reporter-options"]].all
        (fun names => names.all (fun n =>
          ["--spec", "--reporter", "--reporter-options",
           "--config"].contains n && !(n == "--env")))) = true :=
  ⟨rfl, by decide⟩

/-- C8 (counterexample): the support file registers the command names
`apiLogin` and `uploadFile` twice each. -/
theorem part001_duplicate_registrations_counterexample :
    registrationCount "apiLogin" = 2 ∧
    registrationCount "uploadFile" = 2 := by
  decide

/-- C8 (amended): every command name registered by the support file is
registered exactly once, except `apiLogin` and `uploadFile`, which are
each registered twice - so loading the support file attempts exactly
those two duplicate registrations. -/
theorem part001_registration_multiplicity :
    (∀ name ∈ part001Registrations,
      registrationCount name = 1 ∨
        (name ∈ ["apiLogin", "uploadFile"] ∧ registrationCount name = 2)) ∧
    registrationCount "apiLogin" = 2 ∧
    registrationCount "uploadFile" = 2 := by
  decide

/-- Witness for the amended C8 theorem at two concrete command names. -/
theorem part001_registration_multiplicity_witness :
    (registrationCount "login" = 1 ∨
      ("login" ∈ ["apiLogin", "uploadFile"] ∧ registrationCount "login" = 2)) ∧
    (registrationCount "uploadFile" = 1 ∨
      ("uploadFile" ∈ ["apiLogin", "uploadFile"] ∧
        registrationCount "uploadFile" = 2)) :=
  ⟨part001_registration_multiplicity.1 "login" (by decide),
   part001_registration_multiplicity.1 "uploadFile" (by decide)⟩

/-- C5 (counterexample): removing the create-user test from the part_004
suite changes what the suite teardown does: with it the `after` hook
issues DELETE /users/11, without it the hook issues nothing. -/
theorem apiSuite_teardown_depends_counterexample :
    (runApiSuite 11 [.listUsers, .createUser, .updateUser]).2 =
      [.deleteUser 11] ∧
    (runApiSuite 11 [.listUsers, .updateUser]).2 = [] ∧
    (runApiSuite 11 [.listUsers, .createUser, .updateUser]).2 ≠
      (runApiSuite 11 [.listUsers, .updateUser]).2 := by
  decide

/-- C5 (amended): no test of the part_004 suite reads state written by
another test - each test's requests are independent of the incoming
`createdUserId` value - but the suite teardown does read `createdUserId`,
issuing the DELETE exactly when the variable is truthy, so removing the
create-user test changes the teardown's behavior. -/
theorem apiSuite_tests_stateless_but_teardown_reads
    (serverAssignedId : Nat) (t : ApiTest) (s s' : Option Nat) :
    (runApiTest serverAssignedId t s).2 = (runApiTest serverAssignedId t s').2 ∧
    afterHookReqs none = [] ∧
    (∀ n : Nat, n ≠ 0 → afterHookReqs (some n) = [.deleteUser n]) ∧
    (runApiSuite 11 [.listUsers, .createUser, .updateUser]).2 =
      [.deleteUser 11] ∧
    (runApiSuite 11 [.listUsers, .updateUser]).2 = [] := by
  refine ⟨?_, rfl, ?_, by decide, by decide⟩
  · cases t <;> rfl
  · intro n h
    simp [afterHookReqs, h]

/-- Witness for the amended C5 theorem at a concrete test and states. -/
theorem apiSuite_tests_stateless_but_teardown_reads_witness :
    (runApiTest 11 .createUser none).2 = (runApiTest 11 .createUser (some 5)).2 ∧
    afterHookReqs (some 11) = [.deleteUser 11] :=
  ⟨(apiSuite_tests_stateless_but_teardown_reads 11 .createUser none (some 5)).1,
   (apiSuite_tests_stateless_but_teardown_reads 11 .createUser none
      (some 5)).2.2.1 11 (by decide)⟩

end Cypressfeb
